import Mathlib

/-!
Verification development for the `custom-socket` Deno WebSocket client
(`ws.ts` and `mod.ts`).

The embedding models each source function as a pure Lean function over an
explicit connection state, producing a trace of observable effects
(transport connects/closes, frames handed to the outbound queue, `writeFrame`
invocations, dispatched events).  External collaborators declared out of
scope by the design (the TCP/TLS transport, `TextEncoder`/`TextDecoder`,
randomness) are abstracted: text is carried as its byte sequence, so the
encoder and decoder are identities on that representation, and `conn.close()`
is modelled as succeeding.

The deferred returned by `enqueue` settles only through
`writeFrame(frame, this.writer).then(d.resolve, d.reject)` inside `dequeue`.
`dequeue` returns before that call whenever `_isClosed` is false, and its only
caller is `enqueue`, which throws first whenever `_isClosed` is true — so no
execution ever reaches `writeFrame` and no `enqueue` deferred ever settles
(`enqueue_never_writes` proves the no-write half inside the model).  Every
`await` of such a deferred therefore suspends forever; the model renders this
as an explicit `Outcome.hung` / `LoopCont.stalled` result carrying the effects
performed up to the suspension point, after which the suspended function's
remaining statements (including `finally` blocks) never run.
-/

namespace CustomSocket

/-- Frame opcodes, from `OpCode` in `std/ws/mod.ts` (the subset this client
dispatches on). -/
inductive OpCode where
  | Continue
  | TextFrame
  | BinaryFrame
  | Close
  | Ping
  | Pong
deriving DecidableEq, Repr

/-- `WebSocketFrame`: opcode, fin bit (`isLastFrame`), optional 4-byte mask,
payload bytes. -/
structure WebSocketFrame where
  opcode : OpCode
  payload : List Nat
  isLastFrame : Bool
  mask : Option (List Nat) := none
deriving DecidableEq, Repr

/-- A delivered message: text (carried as its UTF-8 bytes; `TextDecoder` is an
external collaborator) or binary. -/
inductive Msg where
  | text (bytes : List Nat)
  | binary (bytes : List Nat)
deriving DecidableEq, Repr

/-- Observable effects of a run: transport operations, queue operations and
dispatched events, in program order. -/
inductive Eff where
  | connect
  | connClose
  | enqueued (f : WebSocketFrame)
  | write (f : WebSocketFrame)
  | openEvent
  | messageEvent (m : Msg)
  | pingEvent (p : List Nat)
  | pongEvent (p : List Nat)
  | closeEvent
  | errorEvent (code : Nat) (reason : List Nat)
deriving DecidableEq, Repr

/-- Errors surfaced by the client. -/
inductive WSError where
  | connectionReset
  | writeFailure
  | unsupportedProtocol
  | handshakeFailure
deriving DecidableEq, Repr

deriving instance DecidableEq for Except

/-- The mutable fields of class `WS` that the claims concern: `readyState`,
`_isClosed`, the outbound queue (frames of the pending `Queue` entries, in
order), and the connection's client mask. -/
structure WSState where
  readyState : Nat
  isClosed : Bool
  queue : List WebSocketFrame
  mask : List Nat
deriving DecidableEq, Repr

/-- The drain loop of `WS.dequeue`:

    const [entry] = this.queue;
    if(!entry || !this._isClosed) return;
    writeFrame(frame, this.writer).then(d.resolve, d.reject).finally(() => {
        this.queue.shift(); this.dequeue();
    })

Each iteration returns when the queue is empty or when `_isClosed` is false
(the guard is `!this._isClosed`); otherwise it invokes `writeFrame` on the
head entry and — in the `finally`, hence whether the write resolved or
rejected — shifts the queue and recurses. -/
def dequeueLoop (isClosed : Bool) : List WebSocketFrame → List WebSocketFrame × List Eff
  | [] => ([], [])
  | f :: rest =>
    if !isClosed then (f :: rest, [])
    else
      let out := dequeueLoop isClosed rest
      (out.1, Eff.write f :: out.2)

/-- `WS.dequeue` acting on the connection state. -/
def dequeue (s : WSState) : WSState × List Eff :=
  let out := dequeueLoop s.isClosed s.queue
  ({ s with queue := out.1 }, out.2)

/-- `WS.enqueue`: throws `ConnectionReset` if `_isClosed`; otherwise pushes the
entry and, if it is the only entry, calls `dequeue`.  The returned `Except` is
the synchronous outcome (the deferred's settlement is modelled separately at
each `await` site). -/
def enqueue (s : WSState) (f : WebSocketFrame) : WSState × List Eff × Except WSError Unit :=
  if s.isClosed then (s, [], Except.error WSError.connectionReset)
  else
    let s1 : WSState := { s with queue := s.queue ++ [f] }
    if s1.queue.length = 1 then
      let out := dequeue s1
      (out.1, Eff.enqueued f :: out.2, Except.ok ())
    else (s1, [Eff.enqueued f], Except.ok ())

/-- `WS.ensureClosed`: closes the transport (modelled as succeeding), then in
the `finally` sets `_isClosed`, sets `readyState = 3` and dispatches the
`close` event. -/
def ensureClosed (s : WSState) : WSState × List Eff :=
  ({ s with isClosed := true, readyState := 3 }, [Eff.connClose, Eff.closeEvent])

/-- The default `code` argument of `WS.close` (`async close(code = 100, ...)`). -/
def CLOSE_DEFAULT_CODE : Nat := 100

/-- The 2-byte header of a Close payload built by `WS.close`:
`[code >>> 8, code & 0x00ff]`. -/
def closeHeader (code : Nat) : List Nat :=
  [code >>> 8, code &&& 0xff]

/-- The Close payload built by `WS.close`: the header alone when `reason` is
absent or the empty string (`if(reason)` is falsy on `""`), else the header
followed by the reason's UTF-8 bytes. -/
def closePayload (code : Nat) (reason : Option (List Nat)) : List Nat :=
  match reason with
  | some bs => if bs.isEmpty then closeHeader code else closeHeader code ++ bs
  | none => closeHeader code

/-- How a call into the async machinery ends: it returns a value, or it
suspends forever at an `await` of a deferred that no execution ever
settles. -/
inductive Outcome (α : Type) where
  | done (a : α)
  | hung
deriving DecidableEq, Repr

/-- `WS.close`: no-op when already `_isClosed`; otherwise builds the Close
payload and runs
`try { await this.enqueue(...) } catch(e) { throw e } finally { this.ensureClosed(); }`.
If `enqueue` threw synchronously the `catch` rethrows after the `finally`'s
`ensureClosed` (unreachable from this branch, since `enqueue` throws only when
`_isClosed` is set).  Otherwise the `await` suspends on the entry's deferred,
which never settles (see the header and `enqueue_never_writes`): `close`
hangs, and the `finally` — hence `ensureClosed` — never runs. -/
def close (s : WSState) (code : Nat) (reason : Option (List Nat)) :
    WSState × List Eff × Outcome (Except WSError Unit) :=
  if s.isClosed then (s, [], Outcome.done (Except.ok ()))
  else
    let frame : WebSocketFrame :=
      { isLastFrame := true, opcode := OpCode.Close, mask := some s.mask,
        payload := closePayload code reason }
    let out := enqueue s frame
    match out.2.2 with
    | Except.error e =>
      let fin := ensureClosed out.1
      (fin.1, out.2.1 ++ fin.2, Outcome.done (Except.error e))
    | Except.ok _ => (out.1, out.2.1, Outcome.hung)

/-- Argument of `WS.send` / `WS.ping`: a string (carried as UTF-8 bytes,
`TextEncoder` being external) or a `Uint8Array`. -/
inductive WebSocketMessage where
  | str (bytes : List Nat)
  | bin (bytes : List Nat)
deriving DecidableEq, Repr

/-- `WS.send`: enqueues a single final Text or Binary frame carrying the
client mask, by payload type. -/
def send (s : WSState) (data : WebSocketMessage) : WSState × List Eff × Except WSError Unit :=
  enqueue s
    { isLastFrame := true,
      opcode := match data with
        | WebSocketMessage.str _ => OpCode.TextFrame
        | WebSocketMessage.bin _ => OpCode.BinaryFrame,
      payload := match data with
        | WebSocketMessage.str bs => bs
        | WebSocketMessage.bin bs => bs,
      mask := some s.mask }

/-- `WS.ping`: enqueues a single final Ping frame carrying the client mask. -/
def ping (s : WSState) (data : WebSocketMessage) : WSState × List Eff × Except WSError Unit :=
  enqueue s
    { isLastFrame := true,
      opcode := OpCode.Ping,
      payload := match data with
        | WebSocketMessage.str bs => bs
        | WebSocketMessage.bin bs => bs,
      mask := some s.mask }

/-- The state threaded through the read loop of `WS.init`: the connection
state plus the pending-message buffer (`let frames: WebSocketFrame[] = []`;
`payloadsLength` is the sum of the buffered payload lengths and is kept
implicit). -/
structure LoopState where
  ws : WSState
  frames : List WebSocketFrame
deriving DecidableEq, Repr

/-- The concatenation loop of the data-frame case:

    const concat = new Uint8Array(payloadsLength);
    let offs = 0;
    for(let i = 0; i < frames.length; i++){
        concat.set(frames[i].payload, offs);
        offs += frames[i].payload.length;
    }

copies each buffered payload at the running offset, i.e. appends them in
order. -/
def concatFrames : List WebSocketFrame → List Nat
  | [] => []
  | f :: fs => f.payload ++ concatFrames fs

/-- The Text/Binary/Continue case of the read loop: push the frame; when its
fin bit is set, concatenate the buffered payloads, dispatch a `message` event
(text when `frames[0].opcode == OpCode.TextFrame`, else binary) and reset the
buffer. -/
def handleDataFrame (buf : List WebSocketFrame) (f : WebSocketFrame) :
    List WebSocketFrame × List Eff :=
  let buf1 := buf ++ [f]
  if f.isLastFrame then
    let concat := concatFrames buf1
    let msg :=
      match buf1.head? with
      | some f0 => if f0.opcode = OpCode.TextFrame then Msg.text concat else Msg.binary concat
      | none => Msg.binary concat
    ([], [Eff.messageEvent msg])
  else (buf1, [])

/-- The two bytes the Close case reads:
`(frame.payload[0] << 8) | frame.payload[1]`.  A missing byte reads as
JavaScript `undefined`, which the bitwise operators coerce to `0`, hence
`getD _ 0`. -/
def closeCodeOf (p : List Nat) : Nat :=
  ((p.getD 0 0) <<< 8) ||| (p.getD 1 0)

/-- How one read-loop iteration leaves the loop: it proceeds to the next
iteration, ends it (the `break` of the catch block, the `return` of the Close
case, or an exception propagating out of `init`), or stalls forever at an
`await` of a never-settling deferred. -/
inductive LoopCont where
  | next
  | stop
  | stalled
deriving DecidableEq, Repr

/-- One iteration of the read loop of `WS.init` on the outcome of
`readFrame` (`Except.error` when `readFrame` threw): the next state, the
effects performed before the iteration ended or stalled, and how it left the
loop.  The Ping case runs `await this.enqueue({...Pong...})` before the
`ping` dispatch: the enqueue's synchronous part runs, then the `await`
suspends forever, so the dispatch below it never fires.  The Close case
suspends inside `await this.close(...)` the same way, so the `error` dispatch
below it never fires either. -/
def stepFrame (st : LoopState) (r : Except Unit WebSocketFrame) :
    LoopState × List Eff × LoopCont :=
  match r with
  | Except.error _ =>
    let out := ensureClosed st.ws
    ({ st with ws := out.1 }, out.2, LoopCont.stop)
  | Except.ok frame =>
    match frame.opcode with
    | OpCode.TextFrame | OpCode.BinaryFrame | OpCode.Continue =>
      let out := handleDataFrame st.frames frame
      ({ st with frames := out.1 }, out.2, LoopCont.next)
    | OpCode.Close =>
      let ws1 : WSState := { st.ws with readyState := 2 }
      let code := closeCodeOf frame.payload
      let reason := frame.payload.drop 2
      let out := close ws1 code (some reason)
      match out.2.2 with
      | Outcome.done (Except.ok _) =>
        ({ st with ws := out.1 }, out.2.1 ++ [Eff.errorEvent code reason], LoopCont.stop)
      | Outcome.done (Except.error _) =>
        ({ st with ws := out.1 }, out.2.1, LoopCont.stop)
      | Outcome.hung =>
        ({ st with ws := out.1 }, out.2.1, LoopCont.stalled)
    | OpCode.Ping =>
      let out := enqueue st.ws
        { opcode := OpCode.Pong, payload := frame.payload, isLastFrame := true }
      match out.2.2 with
      | Except.error _ => ({ st with ws := out.1 }, out.2.1, LoopCont.stop)
      | Except.ok _ => ({ st with ws := out.1 }, out.2.1, LoopCont.stalled)
    | OpCode.Pong =>
      (st, [Eff.pongEvent frame.payload], LoopCont.next)

/-- The read loop `while(!this._isClosed){ ... }` of `WS.init`, driven by a
list of `readFrame` outcomes.  On `stop` or `stalled` the fold ends, returning
the effects observed up to that point. -/
def runLoop : LoopState → List (Except Unit WebSocketFrame) → LoopState × List Eff
  | st, [] => (st, [])
  | st, r :: rs =>
    if st.ws.isClosed then (st, [])
    else
      let out := stepFrame st r
      match out.2.2 with
      | LoopCont.next =>
        let out2 := runLoop out.1 rs
        (out2.1, out.2.1 ++ out2.2)
      | LoopCont.stop => (out.1, out.2.1)
      | LoopCont.stalled => (out.1, out.2.1)

/-- `createConnection` of `mod.ts`, abstracted over the transport and the
`std/ws` `handshake`: dispatch on the URL's protocol (plain connect for
`http:`/`ws:`, TLS for `https:`/`wss:`, otherwise throw), then run the
handshake inside `try { ... } catch(e) { conn.close(); throw e; }`.
`handshakeOk` is the handshake's outcome.  On success the source returns the
`Connection` record; the model returns `Except.ok ()`. -/
def createConnection (protocol : String) (handshakeOk : Bool) :
    List Eff × Except WSError Unit :=
  if protocol = "http:" ∨ protocol = "ws:" ∨ protocol = "https:" ∨ protocol = "wss:" then
    if handshakeOk then ([Eff.connect], Except.ok ())
    else ([Eff.connect, Eff.connClose], Except.error WSError.handshakeFailure)
  else ([], Except.error WSError.unsupportedProtocol)

/-- The in-bounds condition of the Close case's payload accesses
(`frame.payload[0]`, `frame.payload[1]`; `subarray(2, length)` reads from
index 2 on). -/
def closePayloadAccessesInBounds (p : List Nat) : Prop :=
  0 < p.length ∧ 1 < p.length

instance (p : List Nat) : Decidable (closePayloadAccessesInBounds p) := by
  unfold closePayloadAccessesInBounds
  infer_instance

/- Concrete fixtures used by witnesses and counterexamples. -/

/-- A concrete 4-byte client mask. -/
def mask0 : List Nat := [7, 11, 13, 17]

/-- An open connection with an empty outbound queue. -/
def wsOpen : WSState :=
  { readyState := 1, isClosed := false, queue := [], mask := mask0 }

/-- Loop state for `wsOpen` with no pending fragments. -/
def stOpen : LoopState := { ws := wsOpen, frames := [] }

/-- A received Ping frame with payload `[1, 2, 3]` (inbound frames are
unmasked). -/
def pingFrame123 : WebSocketFrame :=
  { opcode := OpCode.Ping, payload := [1, 2, 3], isLastFrame := true }

/-- A received Close frame with payload `[0x03, 0xE8]` followed by the bytes
of `"bye"` — the spec's close-handshake scenario. -/
def closeFrameBye : WebSocketFrame :=
  { opcode := OpCode.Close, payload := [3, 232, 98, 121, 101], isLastFrame := true }

/-- The Pong reply the Ping case of `WS.init` builds for payload `[1, 2, 3]`:
the object literal has no `mask` field. -/
def pongReply123 : WebSocketFrame :=
  { opcode := OpCode.Pong, payload := [1, 2, 3], isLastFrame := true }

/-- The Close frame `WS.close` builds and enqueues: final, masked with the
client mask, payload from `closePayload`. -/
def closeEcho (mask : List Nat) (code : Nat) (reason : List Nat) : WebSocketFrame :=
  { isLastFrame := true, opcode := OpCode.Close, mask := some mask,
    payload := closePayload code (some reason) }

/-- The frames of a trace's `writeFrame` invocations, in order. -/
def writesOf (effs : List Eff) : List WebSocketFrame :=
  effs.filterMap fun e =>
    match e with
    | Eff.write f => some f
    | _ => none

/-- The frames a trace hands to the outbound queue, in order. -/
def enqueuedOf (effs : List Eff) : List WebSocketFrame :=
  effs.filterMap fun e =>
    match e with
    | Eff.enqueued f => some f
    | _ => none

/-- How many `close` events a trace dispatches. -/
def closeEventsOf (effs : List Eff) : Nat :=
  (effs.filter fun e =>
    match e with
    | Eff.closeEvent => true
    | _ => false).length

/-- First fragment of the spec's fragmentation scenario: Text, fin clear,
payload `"ab"`. -/
def fragAB : WebSocketFrame :=
  { opcode := OpCode.TextFrame, payload := [97, 98], isLastFrame := false }

/-- Middle fragment: Continuation, fin clear, payload `"cd"`. -/
def fragCD : WebSocketFrame :=
  { opcode := OpCode.Continue, payload := [99, 100], isLastFrame := false }

/-- Last fragment: Continuation, fin set, payload `"ef"`. -/
def fragEF : WebSocketFrame :=
  { opcode := OpCode.Continue, payload := [101, 102], isLastFrame := true }

/-- `dequeueLoop` with `isClosed = false` returns at once: the queue is left
untouched and no `writeFrame` runs. -/
theorem dequeueLoop_open (q : List WebSocketFrame) : dequeueLoop false q = (q, []) := by
  cases q <;> simp [dequeueLoop]

/-- C1: enqueueing a frame while the connection is not closed performs no
`writeFrame` invocation at all — not even when the queue was empty at enqueue
time — because `dequeue`'s guard `if(!entry || !this._isClosed) return;`
returns whenever the socket is not flagged closed.  The entry is appended to
the queue and stays there. -/
theorem c1_enqueue_never_writes_while_open (s : WSState) (f : WebSocketFrame)
    (h : s.isClosed = false) :
    writesOf (enqueue s f).2.1 = [] ∧ (enqueue s f).1.queue = s.queue ++ [f] := by
  unfold enqueue
  rw [h]
  simp only [Bool.false_eq_true, if_false]
  split
  · simp [dequeue, h, dequeueLoop_open, writesOf]
  · simp [writesOf]

/-- Witness for C1: enqueueing a Text frame on an open connection with an
empty queue writes nothing. -/
theorem c1_enqueue_never_writes_while_open_witness :
    writesOf (enqueue wsOpen pingFrame123).2.1 = [] ∧
    (enqueue wsOpen pingFrame123).1.queue = wsOpen.queue ++ [pingFrame123] :=
  c1_enqueue_never_writes_while_open wsOpen pingFrame123 rfl

/-- C2: the automatic Pong reply enqueued on receipt of a Ping carries no
mask (`mask = none`), while the frames built by `send` (and likewise `ping`
and `close`) carry the connection's client mask. -/
theorem c2_pong_reply_unmasked :
    enqueuedOf (stepFrame stOpen (Except.ok pingFrame123)).2.1 = [pongReply123] ∧
    pongReply123.mask = none ∧
    enqueuedOf (send wsOpen (WebSocketMessage.str [97])).2.1 =
      [{ opcode := OpCode.TextFrame, payload := [97], isLastFrame := true,
         mask := some mask0 }] := by
  decide

/-- No call to `enqueue` ever invokes `writeFrame`, in any state: when
`_isClosed` is set, `enqueue` throws before reaching `dequeue`; when it is
not, `dequeue`'s guard `if(!entry || !this._isClosed) return;` bails out
first.  Since `enqueue` is `dequeue`'s only caller, no execution writes a
frame — hence no entry's deferred ever settles. -/
theorem enqueue_never_writes (s : WSState) (f : WebSocketFrame) :
    writesOf (enqueue s f).2.1 = [] := by
  cases hc : s.isClosed with
  | true =>
    unfold enqueue
    rw [hc]
    simp [writesOf]
  | false =>
    unfold enqueue
    rw [hc]
    simp only [Bool.false_eq_true, if_false]
    split
    · simp [dequeue, hc, dequeueLoop_open, writesOf]
    · simp [writesOf]

/-- C3: `close()` on a connection that is not closed enqueues the Close frame
and then suspends forever at `await this.enqueue(...)` — the entry's deferred
can never settle — so the `finally` never runs: `_isClosed` stays false,
`readyState` is unchanged (never 3), the transport is never closed and no
`close` event fires. -/
theorem c3_close_never_completes (s : WSState) (code : Nat)
    (reason : Option (List Nat)) (h : s.isClosed = false) :
    (close s code reason).2.2 = Outcome.hung ∧
    (close s code reason).1.isClosed = false ∧
    (close s code reason).1.readyState = s.readyState ∧
    Eff.connClose ∉ (close s code reason).2.1 ∧
    closeEventsOf (close s code reason).2.1 = 0 := by
  unfold close enqueue
  rw [h]
  simp only [Bool.false_eq_true, if_false]
  split
  · rename_i e heq
    split at heq <;> simp at heq
  · split
    · simp [dequeue, h, dequeueLoop_open, closeEventsOf]
    · simp [closeEventsOf]

/-- Witness for C3: `close(1000)` on the open fixture hangs without any
cleanup. -/
theorem c3_close_never_completes_witness :
    (close wsOpen 1000 none).2.2 = Outcome.hung ∧
    (close wsOpen 1000 none).1.isClosed = false ∧
    (close wsOpen 1000 none).1.readyState = wsOpen.readyState ∧
    Eff.connClose ∉ (close wsOpen 1000 none).2.1 ∧
    closeEventsOf (close wsOpen 1000 none).2.1 = 0 :=
  c3_close_never_completes wsOpen 1000 none rfl

/-- C4: calling `close()` twice on an open connection: the first call hangs
at its `await` before `ensureClosed`, so `_isClosed` stays false and the
second call is not a no-op — it enqueues a second Close frame (queue length
2).  Across both calls: zero `close` events, zero `writeFrame` invocations,
and both calls suspend forever. -/
theorem c4_double_close :
    (close (close wsOpen CLOSE_DEFAULT_CODE none).1 CLOSE_DEFAULT_CODE none).1.queue.length
      = 2 ∧
    (close wsOpen CLOSE_DEFAULT_CODE none).1.isClosed = false ∧
    closeEventsOf ((close wsOpen CLOSE_DEFAULT_CODE none).2.1 ++
      (close (close wsOpen CLOSE_DEFAULT_CODE none).1 CLOSE_DEFAULT_CODE none).2.1) = 0 ∧
    writesOf ((close wsOpen CLOSE_DEFAULT_CODE none).2.1 ++
      (close (close wsOpen CLOSE_DEFAULT_CODE none).1 CLOSE_DEFAULT_CODE none).2.1) = [] ∧
    (close wsOpen CLOSE_DEFAULT_CODE none).2.2 = Outcome.hung ∧
    (close (close wsOpen CLOSE_DEFAULT_CODE none).1 CLOSE_DEFAULT_CODE none).2.2 =
      Outcome.hung := by
  decide

/-- C8: for each of the four accepted URL schemes, when the handshake fails
after the transport was opened, the transport is closed (the `conn.close()`
of the catch block, traced after the `connect`) and only then does the
handshake error propagate as the result. -/
theorem c8_handshake_failure_closes_transport (protocol : String)
    (h : protocol = "http:" ∨ protocol = "ws:" ∨ protocol = "https:" ∨ protocol = "wss:") :
    createConnection protocol false =
      ([Eff.connect, Eff.connClose], Except.error WSError.handshakeFailure) := by
  unfold createConnection
  rw [if_pos h]
  simp

/-- Witness for C8, at scheme `wss:`. -/
theorem c8_handshake_failure_closes_transport_witness :
    createConnection "wss:" false =
      ([Eff.connect, Eff.connClose], Except.error WSError.handshakeFailure) :=
  c8_handshake_failure_closes_transport "wss:" (Or.inr (Or.inr (Or.inr rfl)))

/-- C9: the Close payload built by `close()` with the default `code` argument
is `[0, 100]` — two big-endian bytes encoding 100, which is below the 1000
range. -/
theorem c9_default_close_code_below_1000 :
    closePayload CLOSE_DEFAULT_CODE none = [0, 100] ∧ CLOSE_DEFAULT_CODE < 1000 := by
  decide

/-- C10: the Close case's payload accesses (`payload[0]`, `payload[1]`, and
the reason from index 2 on) are all in bounds exactly when the received Close
payload has length at least 2; in particular an empty payload and the 1-byte
payload `[0x03]` leave an access out of range. -/
theorem c10_close_payload_access_bounds :
    (∀ p : List Nat, closePayloadAccessesInBounds p ↔ 2 ≤ p.length) ∧
    ¬ closePayloadAccessesInBounds [] ∧ ¬ closePayloadAccessesInBounds [0x03] := by
  refine ⟨fun p => ?_, by decide, by decide⟩
  unfold closePayloadAccessesInBounds
  omega

/-- C5 counterexample: on receiving a Ping with payload `[1, 2, 3]`, the only
effect is the Pong enqueue — the `ping` notification never occurs (the
`await` above it never settles), so it is not the case that the handler is
notified first and then the Pong enqueued; the loop stalls. -/
theorem c5_ping_notification_never_fires :
    (stepFrame stOpen (Except.ok pingFrame123)).2.1 = [Eff.enqueued pongReply123] ∧
    Eff.pingEvent [1, 2, 3] ∉ (stepFrame stOpen (Except.ok pingFrame123)).2.1 ∧
    (stepFrame stOpen (Except.ok pingFrame123)).2.2 = LoopCont.stalled := by
  decide

/-- C5 (amended): for every received Ping with payload `p` on a connection
that is not closed, the state machine enqueues exactly one Pong whose payload
equals `p` and then suspends forever at the `await` of that enqueue's
completion: the ping handler is never notified, and the read loop stalls. -/
theorem c5_ping_handling (st : LoopState) (p : List Nat)
    (h : st.ws.isClosed = false) :
    (stepFrame st
        (Except.ok { opcode := OpCode.Ping, payload := p, isLastFrame := true })).2.1 =
      [Eff.enqueued { opcode := OpCode.Pong, payload := p, isLastFrame := true }] ∧
    (Eff.pingEvent p ∉ (stepFrame st
        (Except.ok { opcode := OpCode.Ping, payload := p, isLastFrame := true })).2.1) ∧
    (stepFrame st
        (Except.ok { opcode := OpCode.Ping, payload := p, isLastFrame := true })).2.2 =
      LoopCont.stalled := by
  unfold stepFrame enqueue
  rw [h]
  simp only [Bool.false_eq_true, if_false]
  split
  · rename_i e heq
    split at heq <;> simp at heq
  · split
    · simp [dequeue, h, dequeueLoop_open]
    · simp

/-- Witness for C5 (amended), at payload `[1, 2, 3]` on the open fixture. -/
theorem c5_ping_handling_witness :
    (stepFrame stOpen
        (Except.ok { opcode := OpCode.Ping, payload := [1, 2, 3], isLastFrame := true })).2.1 =
      [Eff.enqueued { opcode := OpCode.Pong, payload := [1, 2, 3], isLastFrame := true }] ∧
    (Eff.pingEvent [1, 2, 3] ∉ (stepFrame stOpen
        (Except.ok { opcode := OpCode.Ping, payload := [1, 2, 3], isLastFrame := true })).2.1) ∧
    (stepFrame stOpen
        (Except.ok { opcode := OpCode.Ping, payload := [1, 2, 3], isLastFrame := true })).2.2 =
      LoopCont.stalled :=
  c5_ping_handling stOpen [1, 2, 3] rfl

/-- Reading back the two big-endian bytes written by `closeHeader`. -/
theorem closeHeader_bytes (c0 c1 : Nat) (h1 : c1 < 256) :
    closeHeader (256 * c0 + c1) = [c0, c1] := by
  unfold closeHeader
  have hhi : (256 * c0 + c1) >>> 8 = c0 := by
    rw [Nat.shiftRight_eq_div_pow]
    norm_num
    omega
  have hlo : (256 * c0 + c1) &&& 0xff = c1 := by
    have := Nat.and_pow_two_sub_one_eq_mod (256 * c0 + c1) 8
    norm_num at this
    rw [this]
    omega
  rw [hhi, hlo]

/-- The Close case's code extraction on a payload of length ≥ 2 is the
big-endian value of its first two bytes. -/
theorem closeCodeOf_cons (c0 c1 : Nat) (rest : List Nat) (h1 : c1 < 256) :
    closeCodeOf (c0 :: c1 :: rest) = 256 * c0 + c1 := by
  unfold closeCodeOf
  simp only [List.getD_cons_zero, List.getD_cons_succ]
  have hor : 2 ^ 8 * c0 + c1 = 2 ^ 8 * c0 ||| c1 := Nat.mul_add_lt_is_or (by omega) c0
  rw [Nat.shiftLeft_eq, Nat.mul_comm c0 (2 ^ 8), ← hor]
  norm_num

/-- C6: receiving the spec's Close frame (`[0x03, 0xE8]` + `"bye"`) on the
open fixture: the code 1000 and the reason bytes are extracted and the masked
Close echo (same code bytes, same reason) is handed to the outbound queue,
but then the handler suspends forever inside `await this.close(...)`: the
connection never transitions to `Closed` (`readyState` stays 2, `_isClosed`
stays false), the transport is never closed, no `close` or `error` event is
dispatched, and the read loop stalls instead of terminating. -/
theorem c6_close_frame_stalls :
    closeCodeOf closeFrameBye.payload = 1000 ∧
    (stepFrame stOpen (Except.ok closeFrameBye)).2.1 =
      [Eff.enqueued (closeEcho mask0 1000 [98, 121, 101])] ∧
    closePayload 1000 (some [98, 121, 101]) = [3, 232, 98, 121, 101] ∧
    (stepFrame stOpen (Except.ok closeFrameBye)).1.ws.readyState = 2 ∧
    (stepFrame stOpen (Except.ok closeFrameBye)).1.ws.isClosed = false ∧
    Eff.connClose ∉ (stepFrame stOpen (Except.ok closeFrameBye)).2.1 ∧
    closeEventsOf (stepFrame stOpen (Except.ok closeFrameBye)).2.1 = 0 ∧
    (∀ c r, Eff.errorEvent c r ∉ (stepFrame stOpen (Except.ok closeFrameBye)).2.1) ∧
    (stepFrame stOpen (Except.ok closeFrameBye)).2.2 = LoopCont.stalled := by
  refine ⟨by decide, by decide, by decide, by decide, by decide, by decide, by decide,
    ?_, by decide⟩
  intro c r
  simp [stepFrame, closeFrameBye, stOpen, wsOpen, close, enqueue, dequeue, dequeueLoop,
    closeCodeOf, mask0, closeEcho]

/-- `concatFrames` concatenates exactly the payloads, in order. -/
theorem concatFrames_eq_flatten : ∀ fs : List WebSocketFrame,
    concatFrames fs = (fs.map WebSocketFrame.payload).flatten
  | [] => by simp [concatFrames]
  | f :: fs => by simp [concatFrames, concatFrames_eq_flatten fs]

/-- A data frame (Text, Binary or Continuation) is handled by the
reassembler case of the read loop, and the loop continues. -/
theorem stepFrame_data (st : LoopState) (f : WebSocketFrame)
    (hop : f.opcode = OpCode.TextFrame ∨ f.opcode = OpCode.BinaryFrame ∨
      f.opcode = OpCode.Continue) :
    stepFrame st (Except.ok f) =
      ({ st with frames := (handleDataFrame st.frames f).1 },
       (handleDataFrame st.frames f).2, LoopCont.next) := by
  rcases hop with h | h | h <;> simp [stepFrame, h]

/-- Feeding a run of non-final Continuation frames to the read loop only
accumulates their payloads in the pending-message buffer: no effects, state
otherwise unchanged. -/
theorem runLoop_nonfinal (ws : WSState) (hopen : ws.isClosed = false) :
    ∀ mids : List WebSocketFrame,
    (∀ f ∈ mids, f.opcode = OpCode.Continue ∧ f.isLastFrame = false) →
    ∀ (buf : List WebSocketFrame) (rest : List (Except Unit WebSocketFrame)),
    runLoop ⟨ws, buf⟩ (mids.map Except.ok ++ rest) =
      runLoop ⟨ws, buf ++ mids⟩ rest := by
  intro mids
  induction mids with
  | nil => intro _ buf rest; simp
  | cons f fs ih =>
    intro h buf rest
    obtain ⟨hop, hfin⟩ := h f (List.mem_cons_self f fs)
    have hfs : ∀ g ∈ fs, g.opcode = OpCode.Continue ∧ g.isLastFrame = false :=
      fun g hg => h g (List.mem_cons_of_mem f hg)
    have hstep := stepFrame_data ⟨ws, buf⟩ f (Or.inr (Or.inr hop))
    simp only [List.map_cons, List.cons_append, runLoop, hopen, Bool.false_eq_true,
      if_false, hstep, handleDataFrame, hfin, if_true, List.append_eq, List.nil_append]
    rw [ih hfs (buf ++ [f]) rest, List.append_assoc, List.singleton_append]

/-- C7: a fragmented message — a first Text or Binary frame with fin clear,
any run of non-final Continuation frames, and a final Continuation frame with
fin set — is delivered as a single `message` whose payload is the in-order
concatenation of all fragment payloads, typed text exactly when the first
fragment's opcode was Text and binary otherwise; afterwards the
pending-message buffer is empty and the connection state is unchanged. -/
theorem c7_fragmented_reassembly (ws0 : WSState)
    (first lastF : WebSocketFrame) (mids : List WebSocketFrame)
    (hopen : ws0.isClosed = false)
    (hfop : first.opcode = OpCode.TextFrame ∨ first.opcode = OpCode.BinaryFrame)
    (hffin : first.isLastFrame = false)
    (hmids : ∀ f ∈ mids, f.opcode = OpCode.Continue ∧ f.isLastFrame = false)
    (hlop : lastF.opcode = OpCode.Continue)
    (hlfin : lastF.isLastFrame = true) :
    runLoop ⟨ws0, []⟩ (((first :: mids) ++ [lastF]).map Except.ok) =
      (⟨ws0, []⟩,
       [Eff.messageEvent
          (if first.opcode = OpCode.TextFrame
           then Msg.text (concatFrames ((first :: mids) ++ [lastF]))
           else Msg.binary (concatFrames ((first :: mids) ++ [lastF])))]) ∧
    concatFrames ((first :: mids) ++ [lastF]) =
      (((first :: mids) ++ [lastF]).map WebSocketFrame.payload).flatten := by
  refine ⟨?_, concatFrames_eq_flatten _⟩
  have hstep1 := stepFrame_data ⟨ws0, []⟩ first
    (Or.elim hfop (fun h => Or.inl h) (fun h => Or.inr (Or.inl h)))
  simp only [List.cons_append, List.map_cons, List.map_append, List.map_nil, runLoop,
    hopen, Bool.false_eq_true, if_false, hstep1, handleDataFrame, hffin, if_true,
    List.nil_append, List.append_eq]
  rw [runLoop_nonfinal ws0 hopen mids hmids [first] [Except.ok lastF]]
  have hstep2 := stepFrame_data ⟨ws0, first :: mids⟩ lastF (Or.inr (Or.inr hlop))
  simp only [List.map_cons, List.map_nil, runLoop, hopen, Bool.false_eq_true, if_false,
    hstep2, handleDataFrame, hlfin, if_true, List.singleton_append, List.head?_cons,
    List.nil_append, List.append_eq, List.cons_append]

/-- Witness for C7: the spec's scenario — fragments `"ab"`, `"cd"`, `"ef"`
under a Text first frame reassemble to the text message `"abcdef"`
(bytes 97..102), and the buffer ends empty. -/
theorem c7_fragmented_reassembly_witness :
    runLoop ⟨wsOpen, []⟩ (((fragAB :: [fragCD]) ++ [fragEF]).map Except.ok) =
      (⟨wsOpen, []⟩, [Eff.messageEvent (Msg.text [97, 98, 99, 100, 101, 102])]) ∧
    concatFrames ((fragAB :: [fragCD]) ++ [fragEF]) = [97, 98, 99, 100, 101, 102] := by
  have h := c7_fragmented_reassembly wsOpen fragAB fragEF [fragCD] rfl (Or.inl rfl)
    rfl (by decide) rfl rfl
  simpa [fragAB, fragCD, fragEF, concatFrames] using h

end CustomSocket
